import Mathlib

/-!
Shallow embedding of `brew-rs` (src/lib.rs), a thin Rust binding over the
Homebrew command-line tool.  External effects (spawning a process via the
`command_builder` crate, JSON deserialization via `serde_json`) are modelled
by an `Extern` record of uninterpreted functions; every library operation is
a function from `Extern` to a result together with the list of process
invocations it attempted, in order.  Rust's `HashMap<String, V>` fields are
modelled as association lists `List (String × V)`; `usize`/`u32` as `Nat`.
-/

namespace BrewRs

/-- `Version` (src/lib.rs): a string which might be a version number. -/
structure Version where
  original : String
deriving Repr, DecidableEq

/-- `Dependency` (src/lib.rs). -/
structure Dependency where
  full_name : String
  version : Version
deriving Repr, DecidableEq

/-- `Installed` (src/lib.rs): one installed keg record. -/
structure Installed where
  version : Version
  used_options : List String
  built_as_bottle : Bool
  poured_from_bottle : Bool
  runtime_dependencies : List Dependency
  installed_as_dependency : Bool
  installed_on_request : Bool
deriving Repr, DecidableEq

/-- `MapOrString` (src/lib.rs), untagged union. -/
inductive MapOrString where
  | MapStringString (m : List (String × String))
  | String (s : String)
  | MapStringVecString (m : List (String × List String))
deriving Repr, DecidableEq

/-- `NumOrString` (src/lib.rs), untagged union. -/
inductive NumOrString where
  | Num (n : Nat)
  | String (s : String)
deriving Repr, DecidableEq

/-- `Requirment` (src/lib.rs). -/
structure Requirment where
  name : String
  cask : Option String
  download : Option String
  version : Option Version
  contexts : List String
deriving Repr, DecidableEq

/-- `BrewOption` (src/lib.rs): a package option with its description. -/
structure BrewOption where
  option : String
  description : String
deriving Repr, DecidableEq

/-- `Analytic` (src/lib.rs). -/
structure Analytic where
  d30 : Option (List (String × Nat))
  d90 : Option (List (String × Nat))
  d365 : Option (List (String × Nat))
deriving Repr, DecidableEq

/-- `Analytics` (src/lib.rs). -/
structure Analytics where
  install : Analytic
  install_on_request : Analytic
  build_error : Analytic
deriving Repr, DecidableEq

/-- `Versions` (src/lib.rs). -/
structure Versions where
  stable : Version
  devel : Option Version
  head : Option String
  bottle : Bool
deriving Repr, DecidableEq

/-- `File` (src/lib.rs). -/
structure File where
  url : String
  sha256 : String
deriving Repr, DecidableEq

/-- `Bottle` (src/lib.rs).  `pfx` models the Rust field named "prefix",
which is a reserved keyword in Lean. -/
structure Bottle where
  rebuild : Nat
  cellar : Option String
  pfx : Option String
  root_url : String
  files : List (String × File)
deriving Repr, DecidableEq

/-- `Url` (src/lib.rs). -/
structure Url where
  url : String
  tag : Option String
  revision : Option NumOrString
deriving Repr, DecidableEq

/-- `Package` (src/lib.rs): a Homebrew package, which may or may not be
installed.  Field-for-field translation of the Rust struct. -/
structure Package where
  name : String
  full_name : String
  aliases : List String
  oldname : Option String
  desc : Option String
  homepage : Option String
  versions : Versions
  urls : List (String × Url)
  revision : Nat
  version_scheme : Nat
  bottle : List (String × Bottle)
  keg_only : Bool
  bottle_disabled : Bool
  options : List BrewOption
  build_dependencies : List String
  dependencies : List String
  recommended_dependencies : List String
  optional_dependencies : List String
  uses_from_macos : List MapOrString
  requirements : List Requirment
  conflicts_with : List String
  caveats : Option String
  installed : List Installed
  linked_keg : Option String
  pinned : Bool
  outdated : Bool
  analytics : Option Analytics
deriving Repr, DecidableEq

/-- `Error` (src/lib.rs).  `std::io::Error` and `serde_json::Error` payloads
are modelled as their message strings. -/
inductive Error where
  | NotInstalled
  | PackageNotFound
  | IOError (e : String)
  | ParseError (e : String)
  | InstallFailed (s : String)
  | UnknownError (s : String)
deriving Repr, DecidableEq

/-- `command_builder::Output`: captured result of a finished process. -/
structure Output where
  success : Bool
  stdout : String
  stderr : String
deriving Repr, DecidableEq

/-- One attempted process invocation: executable, arguments in order, and
the injected environment variables, as assembled by the `Single` builder. -/
structure Invocation where
  exe : String
  args : List String
  env : List (String × String)
deriving Repr, DecidableEq

/-- The external world: `run` is `command_builder`'s process execution
(`Except.error` is a spawn-time `std::io::Error`), `parsePackages` is
`serde_json::from_str::<Vec<Package>>` (`Except.error` is the serde
message). -/
structure Extern where
  run : Invocation → Except String Output
  parsePackages : String → Except String (List Package)

/-- A library computation: given the external world it yields a
`Result<α>` and the list of process invocations attempted, in order. -/
abbrev BrewM (α : Type) : Type := Extern → Except Error α × List Invocation

/-- `Ok(a)` with no process spawned. -/
def pureB {α : Type} (a : α) : BrewM α := fun _ => (Except.ok a, [])

/-- Rust's `?`-style sequencing, concatenating invocation traces. -/
def bindB {α β : Type} (x : BrewM α) (f : α → BrewM β) : BrewM β := fun ext =>
  match x ext with
  | (Except.ok a, t) =>
      match f a ext with
      | (r, t2) => (r, t ++ t2)
  | (Except.error e, t) => (Except.error e, t)

/-- `Err(e)` with no process spawned. -/
def throwE {α : Type} (e : Error) : BrewM α := fun _ => (Except.error e, [])

/-- `.run()?`: attempt the invocation; a spawn failure becomes
`Error::IOError` via the `From<std::io::Error>` impl. -/
def runCmd (i : Invocation) : BrewM Output := fun ext =>
  match ext.run i with
  | Except.ok o => (Except.ok o, [i])
  | Except.error e => (Except.error (Error.IOError e), [i])

/-- `serde_json::from_str(...)?`: a serde failure becomes
`Error::ParseError` via the `From<serde_json::Error>` impl. -/
def parsePackagesM (s : String) : BrewM (List Package) := fun ext =>
  match ext.parsePackages s with
  | Except.ok v => (Except.ok v, [])
  | Except.error e => (Except.error (Error.ParseError e), [])

/-- The environment-variable pair injected by most invocations. -/
def noAutoUpdate : String × String := ("HOMEBREW_NO_AUTO_UPDATE", "1")

/-- The invocation assembled by `test_brew_installed`. -/
def versionInvocation : Invocation :=
  ⟨"brew", ["--version"], [noAutoUpdate]⟩

/-- `test_brew_installed` (src/lib.rs): runs `brew --version`; any spawn
error or failing exit status means Homebrew is not installed. -/
def test_brew_installed : BrewM Unit := fun ext =>
  match ext.run versionInvocation with
  | Except.ok o =>
      (if o.success then Except.ok () else Except.error Error.NotInstalled,
        [versionInvocation])
  | Except.error _ => (Except.error Error.NotInstalled, [versionInvocation])

/-- `contains` (src/lib.rs): every item of `iter2` occurs in `iter1`
(the `HashSet` is modelled by list membership). -/
def contains {E : Type} [BEq E] (iter1 iter2 : List E) : Bool :=
  iter2.all (fun item => iter1.contains item)

/-- The invocation assembled by `Package::new`: note the executable is the
absolute path `/usr/local/bin/brew`, unlike the other operations. -/
def infoInvocation (name : String) : Invocation :=
  ⟨"/usr/local/bin/brew", ["info", name, "--json=v1"], [noAutoUpdate]⟩

/-- `Package::new` (src/lib.rs): run `/usr/local/bin/brew info <name>
--json=v1`, parse stdout as a JSON array, return its first record. -/
def Package.new (name : String) : BrewM Package :=
  bindB (runCmd (infoInvocation name))
    (fun output =>
      if output.success then
        bindB (parsePackagesM output.stdout)
          (fun packages =>
            match packages.head? with
            | some p => pureB p
            | none => throwE Error.PackageNotFound)
      else
        bindB test_brew_installed (fun _ => throwE Error.PackageNotFound))

/-- `brew_return` (src/lib.rs): on success re-query the package, otherwise
check brew is installed and surface the command's stderr. -/
def brew_return (command : Output) (name : String) : BrewM Package :=
  if command.success then
    Package.new name
  else
    bindB test_brew_installed (fun _ => throwE (Error.UnknownError command.stderr))

/-- `Package::is_installed` (src/lib.rs). -/
def Package.is_installed (self : Package) : Bool :=
  !self.installed.isEmpty

/-- `Package::install_options` (src/lib.rs). -/
def Package.install_options (self : Package) : Option (List String) :=
  self.installed.head?.map (fun i => i.used_options)

/-- `BuildEnv` (src/lib.rs). -/
inductive BuildEnv where
  | Std
  | Super
  | None
deriving Repr, DecidableEq

/-- `Options` (src/lib.rs): command line options to install a package. -/
structure Options where
  env : BuildEnv := BuildEnv.None
  ignore_dependencies : Bool := false
  only_dependencies : Bool := false
  build_from_source : Bool := false
  include_test : Bool := false
  force_bottle : Bool := false
  devel : Bool := false
  head : Bool := false
  keep_tmp : Bool := false
  build_bottle : Bool := false
  bottle_arch : Bool := false
  force : Bool := false
  git : Bool := false
  package_options : List String := []
deriving Repr, DecidableEq

/-- `Options::new` (src/lib.rs): the default, no options added. -/
def Options.new : Options := {}

/-- `Options::brew_options` (src/lib.rs): builds the flag list by pushing
one flag per set option, in source order (push modelled as append). -/
def Options.brew_options (self : Options) : List String :=
  let out : List String := []
  let out := match self.env with
    | BuildEnv.Std => out ++ ["--env=std"]
    | BuildEnv.Super => out ++ ["--env=super"]
    | BuildEnv.None => out
  let out := if self.ignore_dependencies then out ++ ["--ignore-dependencies"] else out
  let out := if self.build_from_source then out ++ ["--build-from-source"] else out
  let out := if self.include_test then out ++ ["--include-test"] else out
  let out := if self.force_bottle then out ++ ["--force-bottle"] else out
  let out := if self.devel then out ++ ["--devel"] else out
  let out := if self.head then out ++ ["--HEAD"] else out
  let out := if self.keep_tmp then out ++ ["--keep-tmp"] else out
  let out := if self.build_bottle then out ++ ["--build-bottle"] else out
  let out := if self.bottle_arch then out ++ ["--bottle-arch"] else out
  let out := if self.force then out ++ ["--force"] else out
  let out := if self.git then out ++ ["--git"] else out
  out

/-- The invocation assembled by `Package::install` for subcommand `sub`
(`install` or `reinstall`): `.arg(sub).args(brew_options).arg(name)
.args(package_options)` with the no-auto-update variable. -/
def installInvocation (self : Package) (options : Options) (sub : String) : Invocation :=
  ⟨"brew", sub :: (options.brew_options ++ [self.name] ++ options.package_options),
    [noAutoUpdate]⟩

/-- The run-and-check tail of `Package::install`, shared by the three
subcommand branches: run, then on success re-query and require the fresh
record to be installed. -/
def installRun (self : Package) (options : Options) (sub : String) : BrewM Package :=
  bindB (runCmd (installInvocation self options sub))
    (fun command =>
      if command.success then
        bindB (Package.new self.name)
          (fun new =>
            if new.is_installed then pureB new
            else throwE (Error.InstallFailed "Could not detect new install"))
      else
        bindB test_brew_installed
          (fun _ => throwE (Error.InstallFailed command.stderr)))

/-- `Package::install` (src/lib.rs).  The subcommand argument is chosen by
the closure at lines 162-173; the early `return Self::new(&self.name)`
inside it short-circuits the whole call.  The `unwrap` on
`install_options` is guarded by `is_installed` and modelled by `getD []`. -/
def Package.install (self : Package) (options : Options) : BrewM Package :=
  if self.is_installed && options.force then
    installRun self options "reinstall"
  else if self.is_installed then
    let opts := self.install_options.getD []
    if contains opts options.package_options then
      Package.new self.name
    else
      installRun self options "reinstall"
  else
    installRun self options "install"

/-- The invocation assembled by `Package::uninstall`. -/
def uninstallInvocation (self : Package) (force ignore_dependencies : Bool) : Invocation :=
  ⟨"brew",
    ["uninstall", self.name]
      ++ (if force then ["--force"] else [])
      ++ (if ignore_dependencies then ["--ignore-dependencies"] else []),
    [noAutoUpdate]⟩

/-- `Package::uninstall` (src/lib.rs). -/
def Package.uninstall (self : Package) (force ignore_dependencies : Bool) : BrewM Package :=
  bindB (runCmd (uninstallInvocation self force ignore_dependencies))
    (fun command => brew_return command self.name)

/-- The invocation assembled by `Package::pin`. -/
def pinInvocation (name : String) : Invocation :=
  ⟨"brew", ["pin", name], [noAutoUpdate]⟩

/-- `Package::pin` (src/lib.rs): no-op clone when already pinned. -/
def Package.pin (self : Package) : BrewM Package :=
  if !self.pinned then
    bindB (runCmd (pinInvocation self.name))
      (fun command => brew_return command self.name)
  else
    pureB self

/-- The invocation assembled by `Package::unpin`. -/
def unpinInvocation (name : String) : Invocation :=
  ⟨"brew", ["unpin", name], [noAutoUpdate]⟩

/-- `Package::unpin` (src/lib.rs): no-op clone when not pinned. -/
def Package.unpin (self : Package) : BrewM Package :=
  if self.pinned then
    bindB (runCmd (unpinInvocation self.name))
      (fun command => brew_return command self.name)
  else
    pureB self

/-- The invocation assembled by `Package::upgrade`. -/
def upgradeInvocation (name : String) : Invocation :=
  ⟨"brew", ["upgrade", name], [noAutoUpdate]⟩

/-- `Package::upgrade` (src/lib.rs). -/
def Package.upgrade (self : Package) : BrewM Package :=
  if self.is_installed then
    bindB (runCmd (upgradeInvocation self.name))
      (fun command => brew_return command self.name)
  else
    throwE Error.NotInstalled

/-- The invocation assembled by `update`: the source attaches no
environment variables to this one. -/
def updateInvocation : Invocation :=
  ⟨"brew", ["update"], []⟩

/-- `update` (src/lib.rs). -/
def update : BrewM Unit :=
  bindB (runCmd updateInvocation)
    (fun command =>
      if command.success then pureB ()
      else bindB test_brew_installed
        (fun _ => throwE (Error.UnknownError command.stderr)))

/-- The invocation assembled by `packages`. -/
def packagesInvocation (arg : String) : Invocation :=
  ⟨"brew", ["info", "--json=v1", arg], [noAutoUpdate]⟩

/-- `packages` (src/lib.rs): internal wrapper to get package info; note
the failure branch wraps the command's stdout, not stderr.
The returned `HashMap` is modelled as the association list collected
from `v.into_iter().map(|p| (p.name.clone(), p))`. -/
def packages (arg : String) : BrewM (List (String × Package)) :=
  bindB (runCmd (packagesInvocation arg))
    (fun output =>
      if output.success then
        bindB (parsePackagesM output.stdout)
          (fun v => pureB (v.map (fun p => (p.name, p))))
      else
        bindB test_brew_installed
          (fun _ => throwE (Error.UnknownError output.stdout)))

/-- `all_installed` (src/lib.rs). -/
def all_installed : BrewM (List (String × Package)) :=
  packages "--installed"

/-- `all_packages` (src/lib.rs). -/
def all_packages : BrewM (List (String × Package)) :=
  packages "--all"

/-! ### Auxiliary notions used by the specification statements -/

/-- The stderr/stdout text carried by an error, if any (the string payload
of `ParseError`, `InstallFailed`, `UnknownError`). -/
def Error.carriedText : Error → Option String
  | Error.ParseError e => some e
  | Error.InstallFailed s => some s
  | Error.UnknownError s => some s
  | _ => none

/-- The executable is the Homebrew tool (either spelling used in the
source). -/
def brewExe (i : Invocation) : Bool :=
  i.exe == "brew" || i.exe == "/usr/local/bin/brew"

/-- "brew itself is installed": the library's own check succeeds in this
external world. -/
def brewInstalled (ext : Extern) : Prop :=
  (test_brew_installed ext).1 = Except.ok ()

/-- A package value freshly produced by deserializing some command output
in the external world `ext` (as opposed to a value derived by mutating a
caller-held record). -/
def FreshlyParsed (ext : Extern) (q : Package) : Prop :=
  ∃ s v, ext.parsePackages s = Except.ok v ∧ q ∈ v

/-- The flag list as the specification describes it: one flag per set
option, concatenated in the stated fixed order, nothing for unset
options. -/
def brewOptionsSpec (o : Options) : List String :=
  (match o.env with
    | BuildEnv.Std => ["--env=std"]
    | BuildEnv.Super => ["--env=super"]
    | BuildEnv.None => [])
  ++ (if o.ignore_dependencies then ["--ignore-dependencies"] else [])
  ++ (if o.build_from_source then ["--build-from-source"] else [])
  ++ (if o.include_test then ["--include-test"] else [])
  ++ (if o.force_bottle then ["--force-bottle"] else [])
  ++ (if o.devel then ["--devel"] else [])
  ++ (if o.head then ["--HEAD"] else [])
  ++ (if o.keep_tmp then ["--keep-tmp"] else [])
  ++ (if o.build_bottle then ["--build-bottle"] else [])
  ++ (if o.bottle_arch then ["--bottle-arch"] else [])
  ++ (if o.force then ["--force"] else [])
  ++ (if o.git then ["--git"] else [])

/-! ### Concrete sample data for witnesses and counterexamples -/

/-- A minimal concrete `Versions` record. -/
def sampleVersions : Versions :=
  ⟨⟨"1.0"⟩, none, none, false⟩

/-- A concrete package record that is not installed and not pinned. -/
def pkgFoo : Package where
  name := "foo"
  full_name := "foo"
  aliases := []
  oldname := none
  desc := none
  homepage := none
  versions := sampleVersions
  urls := []
  revision := 0
  version_scheme := 0
  bottle := []
  keg_only := false
  bottle_disabled := false
  options := []
  build_dependencies := []
  dependencies := []
  recommended_dependencies := []
  optional_dependencies := []
  uses_from_macos := []
  requirements := []
  conflicts_with := []
  caveats := none
  installed := []
  linked_keg := none
  pinned := false
  outdated := false
  analytics := none

/-- A concrete installed-keg record with no used options. -/
def sampleInstalled : Installed :=
  ⟨⟨"1.0"⟩, [], false, false, [], false, true⟩

/-- `pkgFoo`, installed. -/
def pkgFooInstalled : Package :=
  { pkgFoo with installed := [sampleInstalled] }

/-- `pkgFoo`, pinned. -/
def pkgFooPinned : Package :=
  { pkgFoo with pinned := true }

/-- An external world where every command succeeds (stdout "J") and every
parse yields the single not-installed record `[pkgFoo]`. -/
def extOk : Extern where
  run := fun _ => Except.ok ⟨true, "J", ""⟩
  parsePackages := fun _ => Except.ok [pkgFoo]

/-- An external world where every command succeeds and every parse yields
the single installed record `[pkgFooInstalled]`. -/
def extOkInstalled : Extern where
  run := fun _ => Except.ok ⟨true, "J", ""⟩
  parsePackages := fun _ => Except.ok [pkgFooInstalled]

/-- An external world where `brew --version` succeeds but every other
command exits with failure, stdout "out" and stderr "boom". -/
def extFail : Extern where
  run := fun i =>
    if i.args = ["--version"] then Except.ok ⟨true, "", ""⟩
    else Except.ok ⟨false, "out", "boom"⟩
  parsePackages := fun _ => Except.ok []

/-- An external world where every command succeeds but every parse fails
with serde message "bad json". -/
def extBadJson : Extern where
  run := fun _ => Except.ok ⟨true, "J", ""⟩
  parsePackages := fun _ => Except.error "bad json"

/-- An external world where every command succeeds and every parse yields
the empty array. -/
def extEmptyJson : Extern where
  run := fun _ => Except.ok ⟨true, "J", ""⟩
  parsePackages := fun _ => Except.ok []

/-- The default options with only `force` set. -/
def optForce : Options := { force := true }

/-- The default options with one package option requested. -/
def optWithPkgOpt : Options := { package_options := ["--with-x"] }

/-! ### Basic computation lemmas -/

theorem bindB_ok {α β : Type} {x : BrewM α} {ext : Extern} {a : α} {t : List Invocation}
    (f : α → BrewM β) (h : x ext = (Except.ok a, t)) :
    bindB x f ext = ((f a ext).1, t ++ (f a ext).2) := by
  unfold bindB
  rw [h]

theorem bindB_err {α β : Type} {x : BrewM α} {ext : Extern} {e : Error} {t : List Invocation}
    (f : α → BrewM β) (h : x ext = (Except.error e, t)) :
    bindB x f ext = (Except.error e, t) := by
  unfold bindB
  rw [h]

theorem runCmd_ok {inv : Invocation} {ext : Extern} {out : Output}
    (h : ext.run inv = Except.ok out) :
    runCmd inv ext = (Except.ok out, [inv]) := by
  unfold runCmd
  rw [h]

theorem runCmd_err {inv : Invocation} {ext : Extern} {e : String}
    (h : ext.run inv = Except.error e) :
    runCmd inv ext = (Except.error (Error.IOError e), [inv]) := by
  unfold runCmd
  rw [h]

theorem parseM_ok {ext : Extern} {s : String} {v : List Package}
    (h : ext.parsePackages s = Except.ok v) :
    parsePackagesM s ext = (Except.ok v, []) := by
  unfold parsePackagesM
  rw [h]

theorem parseM_err {ext : Extern} {s : String} {e : String}
    (h : ext.parsePackages s = Except.error e) :
    parsePackagesM s ext = (Except.error (Error.ParseError e), []) := by
  unfold parsePackagesM
  rw [h]

theorem test_trace (ext : Extern) :
    (test_brew_installed ext).2 = [versionInvocation] := by
  unfold test_brew_installed
  cases h : ext.run versionInvocation <;> simp

theorem test_ok {ext : Extern} {out : Output}
    (h : ext.run versionInvocation = Except.ok out) (hs : out.success = true) :
    test_brew_installed ext = (Except.ok (), [versionInvocation]) := by
  unfold test_brew_installed
  rw [h]
  simp [hs]

theorem brewInstalled_test {ext : Extern} (h : brewInstalled ext) :
    test_brew_installed ext = (Except.ok (), [versionInvocation]) := by
  have ht := test_trace ext
  rcases hx : test_brew_installed ext with ⟨r, t⟩
  rw [hx] at ht
  unfold brewInstalled at h
  rw [hx] at h
  simp at h ht
  rw [h, ht]

theorem bindB_trace {α β : Type} (x : BrewM α) (f : α → BrewM β) (ext : Extern) :
    (bindB x f ext).2 = (x ext).2 ++
      (match (x ext).1 with
        | Except.ok a => (f a ext).2
        | Except.error _ => []) := by
  rcases hx : x ext with ⟨r, t⟩
  cases r with
  | ok a =>
      rw [bindB_ok f hx]
  | error e =>
      rw [bindB_err f hx]
      simp [hx]

theorem bindB_len {α β : Type} {x : BrewM α} {f : α → BrewM β} {ext : Extern} {m n : Nat}
    (hx : (x ext).2.length ≤ m) (hf : ∀ a, ((f a) ext).2.length ≤ n) :
    (bindB x f ext).2.length ≤ m + n := by
  rw [bindB_trace]
  cases hr : (x ext).1 with
  | ok a =>
      simp only [List.length_append]
      exact Nat.add_le_add hx (hf a)
  | error e =>
      simp only [List.length_append, List.length_nil]
      omega

theorem bindB_mem {α β : Type} {x : BrewM α} {f : α → BrewM β} {ext : Extern}
    {P : Invocation → Prop}
    (hx : ∀ i ∈ (x ext).2, P i) (hf : ∀ a, ∀ i ∈ ((f a) ext).2, P i) :
    ∀ i ∈ (bindB x f ext).2, P i := by
  intro i hi
  rw [bindB_trace] at hi
  cases hr : (x ext).1 with
  | ok a =>
      rw [hr] at hi
      rcases List.mem_append.mp hi with h1 | h2
      · exact hx i h1
      · exact hf a i h2
  | error e =>
      rw [hr] at hi
      simp only [List.append_nil] at hi
      exact hx i hi

theorem bindB_runCmd_head {α : Type} (inv : Invocation) (f : Output → BrewM α) (ext : Extern) :
    (bindB (runCmd inv) f ext).2.head? = some inv := by
  cases hr : ext.run inv with
  | ok out =>
      rw [bindB_ok f (runCmd_ok hr)]
      simp
  | error e =>
      rw [bindB_err f (runCmd_err hr)]
      simp

theorem bindB_throwE_not_ok {α : Type} {x : BrewM Unit} {e : Error} {ext : Extern} {a : α} :
    (bindB x (fun _ => throwE e) ext).1 ≠ Except.ok a := by
  rcases hx : x ext with ⟨r, t⟩
  cases r with
  | ok u =>
      rw [bindB_ok _ hx]
      simp [throwE]
  | error e2 =>
      rw [bindB_err _ hx]
      simp

theorem runCmd_trace (inv : Invocation) (ext : Extern) : (runCmd inv ext).2 = [inv] := by
  unfold runCmd
  cases h : ext.run inv <;> simp

theorem parseM_trace (s : String) (ext : Extern) : (parsePackagesM s ext).2 = [] := by
  unfold parsePackagesM
  cases h : ext.parsePackages s <;> simp

/-! ### Lemmas about `Package.new` -/

theorem new_head (name : String) (ext : Extern) :
    (Package.new name ext).2.head? = some (infoInvocation name) := by
  simp only [Package.new]
  exact bindB_runCmd_head _ _ _

theorem new_ok {ext : Extern} {name : String} {out : Output} {p : Package}
    {rest : List Package}
    (hr : ext.run (infoInvocation name) = Except.ok out)
    (hs : out.success = true)
    (hp : ext.parsePackages out.stdout = Except.ok (p :: rest)) :
    (Package.new name ext).1 = Except.ok p := by
  simp [Package.new, bindB, runCmd, parsePackagesM, pureB, hr, hs, hp]

theorem new_empty {ext : Extern} {name : String} {out : Output}
    (hr : ext.run (infoInvocation name) = Except.ok out)
    (hs : out.success = true)
    (hp : ext.parsePackages out.stdout = Except.ok []) :
    (Package.new name ext).1 = Except.error Error.PackageNotFound := by
  simp [Package.new, bindB, runCmd, parsePackagesM, throwE, hr, hs, hp]

theorem new_parse_fail {ext : Extern} {name : String} {out : Output} {e : String}
    (hr : ext.run (infoInvocation name) = Except.ok out)
    (hs : out.success = true)
    (hp : ext.parsePackages out.stdout = Except.error e) :
    (Package.new name ext).1 = Except.error (Error.ParseError e) := by
  simp [Package.new, bindB, runCmd, parsePackagesM, hr, hs, hp]

theorem new_fail {ext : Extern} {name : String} {out : Output}
    (hr : ext.run (infoInvocation name) = Except.ok out)
    (hs : out.success = false)
    (hb : brewInstalled ext) :
    (Package.new name ext).1 = Except.error Error.PackageNotFound := by
  simp [Package.new, bindB, runCmd, throwE, hr, hs, brewInstalled_test hb]

theorem new_len (name : String) (ext : Extern) : (Package.new name ext).2.length ≤ 2 := by
  simp only [Package.new]
  refine bindB_len (m := 1) (n := 1) ?_ ?_
  · rw [runCmd_trace]
    simp
  · intro out
    by_cases hs : out.success = true
    · rw [if_pos hs]
      refine bindB_len (m := 0) (n := 1) ?_ ?_
      · rw [parseM_trace]
        simp
      · intro packages
        cases hv : packages.head? <;> simp [pureB, throwE]
    · rw [if_neg hs]
      refine bindB_len (m := 1) (n := 0) ?_ ?_
      · rw [test_trace]
        simp
      · intro u
        simp [throwE]

theorem new_mem {P : Invocation → Prop} (name : String) (ext : Extern)
    (h1 : P (infoInvocation name)) (h2 : P versionInvocation) :
    ∀ i ∈ (Package.new name ext).2, P i := by
  simp only [Package.new]
  refine bindB_mem ?_ ?_
  · intro i hi
    rw [runCmd_trace] at hi
    simp at hi
    rw [hi]
    exact h1
  · intro out
    by_cases hs : out.success = true
    · rw [if_pos hs]
      refine bindB_mem ?_ ?_
      · intro i hi
        rw [parseM_trace] at hi
        simp at hi
      · intro packages i hi
        cases hv : packages.head? <;> rw [hv] at hi <;> simp [pureB, throwE] at hi
    · rw [if_neg hs]
      refine bindB_mem ?_ ?_
      · intro i hi
        rw [test_trace] at hi
        simp at hi
        rw [hi]
        exact h2
      · intro u i hi
        simp [throwE] at hi

theorem new_ok_fresh {ext : Extern} {name : String} {q : Package}
    (h : (Package.new name ext).1 = Except.ok q) :
    FreshlyParsed ext q := by
  cases hr : ext.run (infoInvocation name) with
  | error e => simp [Package.new, bindB, runCmd, hr] at h
  | ok out =>
      simp only [Package.new] at h
      rw [bindB_ok _ (runCmd_ok hr)] at h
      by_cases hs : out.success = true
      · rw [if_pos hs] at h
        cases hp : ext.parsePackages out.stdout with
        | error e =>
            rw [bindB_err _ (parseM_err hp)] at h
            simp at h
        | ok v =>
            rw [bindB_ok _ (parseM_ok hp)] at h
            cases v with
            | nil => simp [throwE] at h
            | cons p rest =>
                simp [pureB] at h
                exact ⟨out.stdout, p :: rest, hp, by rw [← h]; exact List.mem_cons_self p rest⟩
      · rw [if_neg hs] at h
        exact absurd h bindB_throwE_not_ok

/-! ### Lemmas about `brew_return` and the run-then-`brew_return` shape
shared by `uninstall`, `pin`, `unpin` and `upgrade` -/

theorem brew_return_ok (ext : Extern) {out : Output} (name : String)
    (hs : out.success = true) :
    brew_return out name ext = Package.new name ext := by
  unfold brew_return
  rw [if_pos hs]

theorem brew_return_fail {ext : Extern} {out : Output} (name : String)
    (hs : out.success = false) (hb : brewInstalled ext) :
    brew_return out name ext = (Except.error (Error.UnknownError out.stderr),
      [versionInvocation]) := by
  unfold brew_return
  rw [if_neg (by simp [hs])]
  rw [bindB_ok _ (brewInstalled_test hb)]
  simp [throwE]

theorem brew_return_len (out : Output) (name : String) (ext : Extern) :
    (brew_return out name ext).2.length ≤ 2 := by
  unfold brew_return
  by_cases hs : out.success = true
  · rw [if_pos hs]
    exact new_len name ext
  · rw [if_neg hs]
    refine bindB_len (m := 1) (n := 1) ?_ ?_
    · rw [test_trace]
      simp
    · intro u
      simp [throwE]

theorem brew_return_mem {P : Invocation → Prop} (out : Output) (name : String) (ext : Extern)
    (h1 : P (infoInvocation name)) (h2 : P versionInvocation) :
    ∀ i ∈ (brew_return out name ext).2, P i := by
  unfold brew_return
  by_cases hs : out.success = true
  · rw [if_pos hs]
    exact new_mem name ext h1 h2
  · rw [if_neg hs]
    refine bindB_mem ?_ ?_
    · intro i hi
      rw [test_trace] at hi
      simp at hi
      rw [hi]
      exact h2
    · intro u i hi
      simp [throwE] at hi

theorem brew_return_ok_fresh {ext : Extern} {out : Output} {name : String} {q : Package}
    (h : (brew_return out name ext).1 = Except.ok q) :
    FreshlyParsed ext q := by
  unfold brew_return at h
  by_cases hs : out.success = true
  · rw [if_pos hs] at h
    exact new_ok_fresh h
  · rw [if_neg hs] at h
    exact absurd h bindB_throwE_not_ok

theorem runBrewReturn_head (inv : Invocation) (name : String) (ext : Extern) :
    ((bindB (runCmd inv) (fun command => brew_return command name)) ext).2.head?
      = some inv :=
  bindB_runCmd_head inv _ ext

theorem runBrewReturn_len (inv : Invocation) (name : String) (ext : Extern) :
    ((bindB (runCmd inv) (fun command => brew_return command name)) ext).2.length ≤ 3 := by
  refine bindB_len (m := 1) (n := 2) ?_ ?_
  · rw [runCmd_trace]
    simp
  · intro out
    exact brew_return_len out name ext

theorem runBrewReturn_mem {P : Invocation → Prop} (inv : Invocation) (name : String)
    (ext : Extern) (h0 : P inv) (h1 : P (infoInvocation name)) (h2 : P versionInvocation) :
    ∀ i ∈ ((bindB (runCmd inv) (fun command => brew_return command name)) ext).2, P i := by
  refine bindB_mem ?_ ?_
  · intro i hi
    rw [runCmd_trace] at hi
    simp at hi
    rw [hi]
    exact h0
  · intro out
    exact brew_return_mem out name ext h1 h2

theorem runBrewReturn_fail {inv : Invocation} {name : String} {ext : Extern} {out : Output}
    (hr : ext.run inv = Except.ok out) (hs : out.success = false) (hb : brewInstalled ext) :
    ((bindB (runCmd inv) (fun command => brew_return command name)) ext).1
      = Except.error (Error.UnknownError out.stderr) := by
  rw [bindB_ok _ (runCmd_ok hr)]
  simp only
  rw [brew_return_fail name hs hb]

theorem runBrewReturn_ok_fresh {inv : Invocation} {name : String} {ext : Extern} {q : Package}
    (h : ((bindB (runCmd inv) (fun command => brew_return command name)) ext).1
      = Except.ok q) :
    FreshlyParsed ext q := by
  cases hr : ext.run inv with
  | error e =>
      rw [bindB_err _ (runCmd_err hr)] at h
      simp at h
  | ok out =>
      rw [bindB_ok _ (runCmd_ok hr)] at h
      exact brew_return_ok_fresh h

/-! ### Lemmas about `installRun` -/

theorem installRun_head (self : Package) (options : Options) (sub : String) (ext : Extern) :
    (installRun self options sub ext).2.head? = some (installInvocation self options sub) := by
  simp only [installRun]
  exact bindB_runCmd_head _ _ _

theorem installRun_fail {ext : Extern} {self : Package} {options : Options} {sub : String}
    {out : Output}
    (hr : ext.run (installInvocation self options sub) = Except.ok out)
    (hs : out.success = false) (hb : brewInstalled ext) :
    (installRun self options sub ext).1 = Except.error (Error.InstallFailed out.stderr) := by
  simp only [installRun]
  rw [bindB_ok _ (runCmd_ok hr)]
  simp only
  rw [if_neg (by simp [hs])]
  rw [bindB_ok _ (brewInstalled_test hb)]
  simp [throwE]

theorem installRun_ok_installed {ext : Extern} {self : Package} {options : Options}
    {sub : String} {q : Package}
    (h : (installRun self options sub ext).1 = Except.ok q) :
    q.is_installed = true := by
  cases hr : ext.run (installInvocation self options sub) with
  | error e =>
      simp only [installRun] at h
      rw [bindB_err _ (runCmd_err hr)] at h
      simp at h
  | ok out =>
      simp only [installRun] at h
      rw [bindB_ok _ (runCmd_ok hr)] at h
      by_cases hs : out.success = true
      · rw [if_pos hs] at h
        rcases hn : Package.new self.name ext with ⟨rn, tn⟩
        cases rn with
        | error e =>
            rw [bindB_err _ hn] at h
            simp at h
        | ok newp =>
            rw [bindB_ok _ hn] at h
            by_cases hi : newp.is_installed = true
            · rw [if_pos hi] at h
              simp [pureB] at h
              rw [← h]
              exact hi
            · rw [if_neg hi] at h
              simp [throwE] at h
      · rw [if_neg hs] at h
        exact absurd h bindB_throwE_not_ok

theorem installRun_ok_fresh {ext : Extern} {self : Package} {options : Options}
    {sub : String} {q : Package}
    (h : (installRun self options sub ext).1 = Except.ok q) :
    FreshlyParsed ext q := by
  cases hr : ext.run (installInvocation self options sub) with
  | error e =>
      simp only [installRun] at h
      rw [bindB_err _ (runCmd_err hr)] at h
      simp at h
  | ok out =>
      simp only [installRun] at h
      rw [bindB_ok _ (runCmd_ok hr)] at h
      by_cases hs : out.success = true
      · rw [if_pos hs] at h
        rcases hn : Package.new self.name ext with ⟨rn, tn⟩
        cases rn with
        | error e =>
            rw [bindB_err _ hn] at h
            simp at h
        | ok newp =>
            rw [bindB_ok _ hn] at h
            by_cases hi : newp.is_installed = true
            · rw [if_pos hi] at h
              simp [pureB] at h
              have hq : (Package.new self.name ext).1 = Except.ok newp := by
                rw [hn]
              rw [← h]
              exact new_ok_fresh hq
            · rw [if_neg hi] at h
              simp [throwE] at h
      · rw [if_neg hs] at h
        exact absurd h bindB_throwE_not_ok

theorem installRun_len (self : Package) (options : Options) (sub : String) (ext : Extern) :
    (installRun self options sub ext).2.length ≤ 3 := by
  simp only [installRun]
  refine bindB_len (m := 1) (n := 2) ?_ ?_
  · rw [runCmd_trace]
    simp
  · intro out
    by_cases hs : out.success = true
    · rw [if_pos hs]
      refine bindB_len (m := 2) (n := 0) (new_len self.name ext) ?_
      intro newp
      by_cases hi : newp.is_installed = true
      · rw [if_pos hi]
        simp [pureB]
      · rw [if_neg hi]
        simp [throwE]
    · rw [if_neg hs]
      refine bindB_len (m := 1) (n := 1) ?_ ?_
      · rw [test_trace]
        simp
      · intro u
        simp [throwE]

theorem installRun_mem {P : Invocation → Prop} (self : Package) (options : Options)
    (sub : String) (ext : Extern)
    (h0 : P (installInvocation self options sub))
    (h1 : P (infoInvocation self.name)) (h2 : P versionInvocation) :
    ∀ i ∈ (installRun self options sub ext).2, P i := by
  simp only [installRun]
  refine bindB_mem ?_ ?_
  · intro i hi
    rw [runCmd_trace] at hi
    simp at hi
    rw [hi]
    exact h0
  · intro out
    by_cases hs : out.success = true
    · rw [if_pos hs]
      refine bindB_mem (new_mem self.name ext h1 h2) ?_
      intro newp i hi
      by_cases hi2 : newp.is_installed = true
      · rw [if_pos hi2] at hi
        simp [pureB] at hi
      · rw [if_neg hi2] at hi
        simp [throwE] at hi
    · rw [if_neg hs]
      refine bindB_mem ?_ ?_
      · intro i hi
        rw [test_trace] at hi
        simp at hi
        rw [hi]
        exact h2
      · intro u i hi
        simp [throwE] at hi

/-! ### Lemmas about `update` and `packages` -/

theorem update_head (ext : Extern) :
    (update ext).2.head? = some updateInvocation := by
  simp only [update]
  exact bindB_runCmd_head _ _ _

theorem update_fail {ext : Extern} {out : Output}
    (hr : ext.run updateInvocation = Except.ok out)
    (hs : out.success = false) (hb : brewInstalled ext) :
    (update ext).1 = Except.error (Error.UnknownError out.stderr) := by
  simp only [update]
  rw [bindB_ok _ (runCmd_ok hr)]
  simp only
  rw [if_neg (by simp [hs])]
  rw [bindB_ok _ (brewInstalled_test hb)]
  simp [throwE]

theorem update_len (ext : Extern) : (update ext).2.length ≤ 2 := by
  simp only [update]
  refine bindB_len (m := 1) (n := 1) ?_ ?_
  · rw [runCmd_trace]
    simp
  · intro out
    by_cases hs : out.success = true
    · rw [if_pos hs]
      simp [pureB]
    · rw [if_neg hs]
      refine bindB_len (m := 1) (n := 0) ?_ ?_
      · rw [test_trace]
        simp
      · intro u
        simp [throwE]

theorem update_mem {P : Invocation → Prop} (ext : Extern)
    (h0 : P updateInvocation) (h2 : P versionInvocation) :
    ∀ i ∈ (update ext).2, P i := by
  simp only [update]
  refine bindB_mem ?_ ?_
  · intro i hi
    rw [runCmd_trace] at hi
    simp at hi
    rw [hi]
    exact h0
  · intro out
    by_cases hs : out.success = true
    · rw [if_pos hs]
      intro i hi
      simp [pureB] at hi
    · rw [if_neg hs]
      refine bindB_mem ?_ ?_
      · intro i hi
        rw [test_trace] at hi
        simp at hi
        rw [hi]
        exact h2
      · intro u i hi
        simp [throwE] at hi

theorem packages_head (arg : String) (ext : Extern) :
    (packages arg ext).2.head? = some (packagesInvocation arg) := by
  simp only [packages]
  exact bindB_runCmd_head _ _ _

theorem packages_ok {ext : Extern} {arg : String} {out : Output} {v : List Package}
    (hr : ext.run (packagesInvocation arg) = Except.ok out)
    (hs : out.success = true)
    (hp : ext.parsePackages out.stdout = Except.ok v) :
    (packages arg ext).1 = Except.ok (v.map (fun p => (p.name, p))) := by
  simp [packages, bindB, runCmd, parsePackagesM, pureB, hr, hs, hp]

theorem packages_parse_fail {ext : Extern} {arg : String} {out : Output} {e : String}
    (hr : ext.run (packagesInvocation arg) = Except.ok out)
    (hs : out.success = true)
    (hp : ext.parsePackages out.stdout = Except.error e) :
    (packages arg ext).1 = Except.error (Error.ParseError e) := by
  simp [packages, bindB, runCmd, parsePackagesM, hr, hs, hp]

theorem packages_fail {ext : Extern} {arg : String} {out : Output}
    (hr : ext.run (packagesInvocation arg) = Except.ok out)
    (hs : out.success = false) (hb : brewInstalled ext) :
    (packages arg ext).1 = Except.error (Error.UnknownError out.stdout) := by
  simp [packages, bindB, runCmd, throwE, hr, hs, brewInstalled_test hb]

theorem packages_len (arg : String) (ext : Extern) : (packages arg ext).2.length ≤ 2 := by
  simp only [packages]
  refine bindB_len (m := 1) (n := 1) ?_ ?_
  · rw [runCmd_trace]
    simp
  · intro out
    by_cases hs : out.success = true
    · rw [if_pos hs]
      refine bindB_len (m := 0) (n := 1) ?_ ?_
      · rw [parseM_trace]
        simp
      · intro v
        simp [pureB]
    · rw [if_neg hs]
      refine bindB_len (m := 1) (n := 0) ?_ ?_
      · rw [test_trace]
        simp
      · intro u
        simp [throwE]

theorem packages_mem {P : Invocation → Prop} (arg : String) (ext : Extern)
    (h0 : P (packagesInvocation arg)) (h2 : P versionInvocation) :
    ∀ i ∈ (packages arg ext).2, P i := by
  simp only [packages]
  refine bindB_mem ?_ ?_
  · intro i hi
    rw [runCmd_trace] at hi
    simp at hi
    rw [hi]
    exact h0
  · intro out
    by_cases hs : out.success = true
    · rw [if_pos hs]
      refine bindB_mem ?_ ?_
      · intro i hi
        rw [parseM_trace] at hi
        simp at hi
      · intro v i hi
        simp [pureB] at hi
    · rw [if_neg hs]
      refine bindB_mem ?_ ?_
      · intro i hi
        rw [test_trace] at hi
        simp at hi
        rw [hi]
        exact h2
      · intro u i hi
        simp [throwE] at hi

theorem packages_ok_inv {ext : Extern} {arg : String} {m : List (String × Package)}
    (h : (packages arg ext).1 = Except.ok m) :
    ∃ v : List Package, m = v.map (fun p => (p.name, p)) := by
  cases hr : ext.run (packagesInvocation arg) with
  | error e =>
      simp only [packages] at h
      rw [bindB_err _ (runCmd_err hr)] at h
      simp at h
  | ok out =>
      simp only [packages] at h
      rw [bindB_ok _ (runCmd_ok hr)] at h
      by_cases hs : out.success = true
      · rw [if_pos hs] at h
        cases hp : ext.parsePackages out.stdout with
        | error e =>
            rw [bindB_err _ (parseM_err hp)] at h
            simp at h
        | ok v =>
            rw [bindB_ok _ (parseM_ok hp)] at h
            have hm : List.map (fun p => (p.name, p)) v = m := by
              simpa [pureB] using h
            exact ⟨v, hm.symm⟩
      · rw [if_neg hs] at h
        exact absurd h bindB_throwE_not_ok

/-! ### Branch lemmas for `Package.install` -/

theorem install_not_installed {p : Package} {o : Options} (h : p.is_installed = false) :
    p.install o = installRun p o "install" := by
  unfold Package.install
  rw [if_neg (by simp [h]), if_neg (by simp [h])]

theorem install_force {p : Package} {o : Options} (h1 : p.is_installed = true)
    (h2 : o.force = true) :
    p.install o = installRun p o "reinstall" := by
  unfold Package.install
  rw [if_pos (by simp [h1, h2])]

theorem install_short {p : Package} {o : Options} (h1 : p.is_installed = true)
    (h2 : o.force = false)
    (h3 : contains (p.install_options.getD []) o.package_options = true) :
    p.install o = Package.new p.name := by
  unfold Package.install
  rw [if_neg (by simp [h2]), if_pos h1]
  simp only [h3, if_true]

theorem install_noshort {p : Package} {o : Options} (h1 : p.is_installed = true)
    (h2 : o.force = false)
    (h3 : contains (p.install_options.getD []) o.package_options = false) :
    p.install o = installRun p o "reinstall" := by
  unfold Package.install
  rw [if_neg (by simp [h2]), if_pos h1]
  simp only [h3, Bool.false_eq_true, if_false]

theorem install_len (p : Package) (o : Options) (ext : Extern) :
    ((p.install o) ext).2.length ≤ 3 := by
  by_cases h1 : p.is_installed = true
  · by_cases h2 : o.force = true
    · rw [install_force h1 h2]
      exact installRun_len p o "reinstall" ext
    · by_cases h3 : contains (p.install_options.getD []) o.package_options = true
      · rw [install_short h1 (by simpa using h2) h3]
        exact le_trans (new_len p.name ext) (by omega)
      · rw [install_noshort h1 (by simpa using h2) (by simpa using h3)]
        exact installRun_len p o "reinstall" ext
  · rw [install_not_installed (by simpa using h1)]
    exact installRun_len p o "install" ext

theorem install_mem {P : Invocation → Prop} (p : Package) (o : Options) (ext : Extern)
    (h0 : ∀ sub, P (installInvocation p o sub))
    (hinfo : P (infoInvocation p.name)) (hver : P versionInvocation) :
    ∀ i ∈ ((p.install o) ext).2, P i := by
  by_cases h1 : p.is_installed = true
  · by_cases h2 : o.force = true
    · rw [install_force h1 h2]
      exact installRun_mem p o "reinstall" ext (h0 "reinstall") hinfo hver
    · by_cases h3 : contains (p.install_options.getD []) o.package_options = true
      · rw [install_short h1 (by simpa using h2) h3]
        exact new_mem p.name ext hinfo hver
      · rw [install_noshort h1 (by simpa using h2) (by simpa using h3)]
        exact installRun_mem p o "reinstall" ext (h0 "reinstall") hinfo hver
  · rw [install_not_installed (by simpa using h1)]
    exact installRun_mem p o "install" ext (h0 "install") hinfo hver

/-- Pushing onto the accumulator commutes with flat concatenation. -/
theorem push_if (c : Bool) (A : List String) (x : String) :
    (if c = true then A ++ [x] else A) = A ++ (if c = true then [x] else []) := by
  cases c <;> simp

/-! ### Claim theorems -/

/-- Claim C6: `Options::brew_options` builds the flag list deterministically:
exactly one flag per set option, in the fixed source order (env flag, then
--ignore-dependencies, --build-from-source, --include-test, --force-bottle,
--devel, --HEAD, --keep-tmp, --build-bottle, --bottle-arch, --force, --git),
nothing for unset options, and `Options::new()` yields the empty list. -/
theorem c6_brew_options_deterministic :
    (∀ o : Options, o.brew_options = brewOptionsSpec o) ∧
    Options.new.brew_options = [] := by
  constructor
  · intro o
    rcases o with ⟨env, b1, b2, b3, b4, b5, b6, b7, b8, b9, b10, b11, b12, po⟩
    cases env <;>
      (simp only [Options.brew_options, brewOptionsSpec, push_if];
       try simp only [List.append_assoc, List.nil_append])
  · rfl

/-- Claim C8: `pin` on an already-pinned package and `unpin` on an unpinned
package are no-ops: they return `Ok` with an identical clone of the package
and invoke no external process. -/
theorem c8_pin_unpin_fixed_point :
    (∀ (ext : Extern) (p : Package), p.pinned = true →
      p.pin ext = (Except.ok p, [])) ∧
    (∀ (ext : Extern) (p : Package), p.pinned = false →
      p.unpin ext = (Except.ok p, [])) := by
  constructor
  · intro ext p h
    simp [Package.pin, h, pureB]
  · intro ext p h
    simp [Package.unpin, h, pureB]

/-- Claim C8 witness at concrete packages. -/
theorem c8_pin_unpin_fixed_point_witness :
    pkgFooPinned.pinned = true ∧
    pkgFooPinned.pin extOk = (Except.ok pkgFooPinned, []) ∧
    pkgFoo.pinned = false ∧
    pkgFoo.unpin extOk = (Except.ok pkgFoo, []) :=
  ⟨rfl, c8_pin_unpin_fixed_point.1 extOk pkgFooPinned rfl, rfl,
    c8_pin_unpin_fixed_point.2 extOk pkgFoo rfl⟩

/-- Claim C9: `upgrade` on a package whose installed list is empty returns
`Err(Error::NotInstalled)` without invoking any external process. -/
theorem c9_upgrade_not_installed :
    ∀ (ext : Extern) (p : Package), p.installed = [] →
      p.upgrade ext = (Except.error Error.NotInstalled, []) := by
  intro ext p h
  simp [Package.upgrade, Package.is_installed, h, throwE]

/-- Claim C9 witness at a concrete package. -/
theorem c9_upgrade_not_installed_witness :
    pkgFoo.installed = [] ∧
    pkgFoo.upgrade extOk = (Except.error Error.NotInstalled, []) :=
  ⟨rfl, c9_upgrade_not_installed extOk pkgFoo rfl⟩

/-- Claim C3: each convenience operation puts the corresponding brew
subcommand first in its argument list: uninstall runs
`brew uninstall <name>` with --force / --ignore-dependencies appended when
the respective flag is true, pin runs `brew pin <name>`, unpin runs
`brew unpin <name>`, upgrade runs `brew upgrade <name>`, update runs
`brew update`, install runs `brew install ...` when the package is not
installed and `brew reinstall ...` when it is installed and force is set. -/
theorem c3_subcommand_first :
    (∀ (ext : Extern) (p : Package) (f d : Bool),
      ((p.uninstall f d) ext).2.head? =
        some ⟨"brew",
          ["uninstall", p.name] ++ (if f then ["--force"] else [])
            ++ (if d then ["--ignore-dependencies"] else []),
          [noAutoUpdate]⟩) ∧
    (∀ (ext : Extern) (p : Package), p.pinned = false →
      (p.pin ext).2.head? = some ⟨"brew", ["pin", p.name], [noAutoUpdate]⟩) ∧
    (∀ (ext : Extern) (p : Package), p.pinned = true →
      (p.unpin ext).2.head? = some ⟨"brew", ["unpin", p.name], [noAutoUpdate]⟩) ∧
    (∀ (ext : Extern) (p : Package), p.is_installed = true →
      (p.upgrade ext).2.head? = some ⟨"brew", ["upgrade", p.name], [noAutoUpdate]⟩) ∧
    (∀ ext : Extern, (update ext).2.head? = some ⟨"brew", ["update"], []⟩) ∧
    (∀ (ext : Extern) (p : Package) (o : Options), p.is_installed = false →
      ((p.install o) ext).2.head? =
        some ⟨"brew", "install" :: (o.brew_options ++ [p.name] ++ o.package_options),
          [noAutoUpdate]⟩) ∧
    (∀ (ext : Extern) (p : Package) (o : Options), p.is_installed = true → o.force = true →
      ((p.install o) ext).2.head? =
        some ⟨"brew", "reinstall" :: (o.brew_options ++ [p.name] ++ o.package_options),
          [noAutoUpdate]⟩) := by
  refine ⟨?_, ?_, ?_, ?_, ?_, ?_, ?_⟩
  · intro ext p f d
    simp only [Package.uninstall]
    exact bindB_runCmd_head _ _ _
  · intro ext p h
    simp only [Package.pin]
    rw [if_pos (by simp [h])]
    exact bindB_runCmd_head _ _ _
  · intro ext p h
    simp only [Package.unpin]
    rw [if_pos h]
    exact bindB_runCmd_head _ _ _
  · intro ext p h
    simp only [Package.upgrade]
    rw [if_pos h]
    exact bindB_runCmd_head _ _ _
  · intro ext
    exact update_head ext
  · intro ext p o h
    rw [install_not_installed h]
    exact installRun_head p o "install" ext
  · intro ext p o h1 h2
    rw [install_force h1 h2]
    exact installRun_head p o "reinstall" ext

/-- Claim C3 witness at concrete inputs. -/
theorem c3_subcommand_first_witness :
    ((pkgFoo.uninstall true true) extOk).2.head? =
      some ⟨"brew", ["uninstall", "foo"] ++ ["--force"] ++ ["--ignore-dependencies"],
        [noAutoUpdate]⟩ ∧
    (pkgFoo.pin extOk).2.head? = some ⟨"brew", ["pin", "foo"], [noAutoUpdate]⟩ ∧
    (pkgFooPinned.unpin extOk).2.head? = some ⟨"brew", ["unpin", "foo"], [noAutoUpdate]⟩ ∧
    (pkgFooInstalled.upgrade extOk).2.head? =
      some ⟨"brew", ["upgrade", "foo"], [noAutoUpdate]⟩ ∧
    (update extOk).2.head? = some ⟨"brew", ["update"], []⟩ ∧
    ((pkgFoo.install Options.new) extOk).2.head? =
      some ⟨"brew",
        "install" :: (Options.new.brew_options ++ [pkgFoo.name]
          ++ Options.new.package_options), [noAutoUpdate]⟩ ∧
    ((pkgFooInstalled.install optForce) extOk).2.head? =
      some ⟨"brew",
        "reinstall" :: (optForce.brew_options ++ [pkgFooInstalled.name]
          ++ optForce.package_options), [noAutoUpdate]⟩ :=
  ⟨c3_subcommand_first.1 extOk pkgFoo true true,
    c3_subcommand_first.2.1 extOk pkgFoo rfl,
    c3_subcommand_first.2.2.1 extOk pkgFooPinned rfl,
    c3_subcommand_first.2.2.2.1 extOk pkgFooInstalled rfl,
    c3_subcommand_first.2.2.2.2.1 extOk,
    c3_subcommand_first.2.2.2.2.2.1 extOk pkgFoo Options.new rfl,
    c3_subcommand_first.2.2.2.2.2.2 extOk pkgFooInstalled optForce rfl rfl⟩

/-! ### Per-operation trace helpers -/

theorem uninstall_len (p : Package) (f d : Bool) (ext : Extern) :
    ((p.uninstall f d) ext).2.length ≤ 3 := by
  simp only [Package.uninstall]
  exact runBrewReturn_len _ _ _

theorem uninstall_mem {P : Invocation → Prop} (p : Package) (f d : Bool) (ext : Extern)
    (h0 : P (uninstallInvocation p f d)) (h1 : P (infoInvocation p.name))
    (h2 : P versionInvocation) :
    ∀ i ∈ ((p.uninstall f d) ext).2, P i := by
  simp only [Package.uninstall]
  exact runBrewReturn_mem _ _ _ h0 h1 h2

theorem pin_len (p : Package) (ext : Extern) : (p.pin ext).2.length ≤ 3 := by
  simp only [Package.pin]
  by_cases h : (!p.pinned) = true
  · rw [if_pos h]
    exact runBrewReturn_len _ _ _
  · rw [if_neg h]
    simp [pureB]

theorem pin_mem {P : Invocation → Prop} (p : Package) (ext : Extern)
    (h0 : P (pinInvocation p.name)) (h1 : P (infoInvocation p.name))
    (h2 : P versionInvocation) :
    ∀ i ∈ (p.pin ext).2, P i := by
  simp only [Package.pin]
  by_cases h : (!p.pinned) = true
  · rw [if_pos h]
    exact runBrewReturn_mem _ _ _ h0 h1 h2
  · rw [if_neg h]
    intro i hi
    simp [pureB] at hi

theorem unpin_len (p : Package) (ext : Extern) : (p.unpin ext).2.length ≤ 3 := by
  simp only [Package.unpin]
  by_cases h : p.pinned = true
  · rw [if_pos h]
    exact runBrewReturn_len _ _ _
  · rw [if_neg h]
    simp [pureB]

theorem unpin_mem {P : Invocation → Prop} (p : Package) (ext : Extern)
    (h0 : P (unpinInvocation p.name)) (h1 : P (infoInvocation p.name))
    (h2 : P versionInvocation) :
    ∀ i ∈ (p.unpin ext).2, P i := by
  simp only [Package.unpin]
  by_cases h : p.pinned = true
  · rw [if_pos h]
    exact runBrewReturn_mem _ _ _ h0 h1 h2
  · rw [if_neg h]
    intro i hi
    simp [pureB] at hi

theorem upgrade_len (p : Package) (ext : Extern) : (p.upgrade ext).2.length ≤ 3 := by
  simp only [Package.upgrade]
  by_cases h : p.is_installed = true
  · rw [if_pos h]
    exact runBrewReturn_len _ _ _
  · rw [if_neg h]
    simp [throwE]

theorem upgrade_mem {P : Invocation → Prop} (p : Package) (ext : Extern)
    (h0 : P (upgradeInvocation p.name)) (h1 : P (infoInvocation p.name))
    (h2 : P versionInvocation) :
    ∀ i ∈ (p.upgrade ext).2, P i := by
  simp only [Package.upgrade]
  by_cases h : p.is_installed = true
  · rw [if_pos h]
    exact runBrewReturn_mem _ _ _ h0 h1 h2
  · rw [if_neg h]
    intro i hi
    simp [throwE] at hi

/-- Claim C2 counterexample: a successful `uninstall` spawns two processes
(the uninstall command, then the re-query `brew info` of `brew_return`),
not at most one as claimed. -/
theorem c2_counterexample :
    ((pkgFoo.uninstall false false) extOk).2 =
      [uninstallInvocation pkgFoo false false, infoInvocation "foo"] ∧
    ((pkgFoo.uninstall false false) extOk).2.length = 2 := ⟨rfl, rfl⟩

/-- Claim C2 (amended): every public operation attempts at most three
external-process invocations per call (the main command, a possible
re-query via `Package::new`, and a possible `brew --version` check), and
every attempted invocation runs the brew executable (either `brew` or
`/usr/local/bin/brew`). -/
theorem c2_bounded_brew_invocations :
    (∀ (ext : Extern) (name : String), (Package.new name ext).2.length ≤ 3 ∧
      ∀ i ∈ (Package.new name ext).2, brewExe i = true) ∧
    (∀ (ext : Extern) (p : Package) (o : Options), ((p.install o) ext).2.length ≤ 3 ∧
      ∀ i ∈ ((p.install o) ext).2, brewExe i = true) ∧
    (∀ (ext : Extern) (p : Package) (f d : Bool), ((p.uninstall f d) ext).2.length ≤ 3 ∧
      ∀ i ∈ ((p.uninstall f d) ext).2, brewExe i = true) ∧
    (∀ (ext : Extern) (p : Package), (p.pin ext).2.length ≤ 3 ∧
      ∀ i ∈ (p.pin ext).2, brewExe i = true) ∧
    (∀ (ext : Extern) (p : Package), (p.unpin ext).2.length ≤ 3 ∧
      ∀ i ∈ (p.unpin ext).2, brewExe i = true) ∧
    (∀ (ext : Extern) (p : Package), (p.upgrade ext).2.length ≤ 3 ∧
      ∀ i ∈ (p.upgrade ext).2, brewExe i = true) ∧
    (∀ ext : Extern, (update ext).2.length ≤ 3 ∧
      ∀ i ∈ (update ext).2, brewExe i = true) ∧
    (∀ ext : Extern, (all_installed ext).2.length ≤ 3 ∧
      ∀ i ∈ (all_installed ext).2, brewExe i = true) ∧
    (∀ ext : Extern, (all_packages ext).2.length ≤ 3 ∧
      ∀ i ∈ (all_packages ext).2, brewExe i = true) := by
  refine ⟨?_, ?_, ?_, ?_, ?_, ?_, ?_, ?_, ?_⟩
  · intro ext name
    exact ⟨le_trans (new_len name ext) (by omega), new_mem name ext rfl rfl⟩
  · intro ext p o
    exact ⟨install_len p o ext, install_mem p o ext (fun sub => rfl) rfl rfl⟩
  · intro ext p f d
    exact ⟨uninstall_len p f d ext, uninstall_mem p f d ext rfl rfl rfl⟩
  · intro ext p
    exact ⟨pin_len p ext, pin_mem p ext rfl rfl rfl⟩
  · intro ext p
    exact ⟨unpin_len p ext, unpin_mem p ext rfl rfl rfl⟩
  · intro ext p
    exact ⟨upgrade_len p ext, upgrade_mem p ext rfl rfl rfl⟩
  · intro ext
    exact ⟨le_trans (update_len ext) (by omega), update_mem ext rfl rfl⟩
  · intro ext
    exact ⟨le_trans (packages_len "--installed" ext) (by omega),
      packages_mem "--installed" ext rfl rfl⟩
  · intro ext
    exact ⟨le_trans (packages_len "--all" ext) (by omega),
      packages_mem "--all" ext rfl rfl⟩

/-- Claim C2 witness at concrete inputs. -/
theorem c2_bounded_brew_invocations_witness :
    (Package.new "foo" extOk).2.length ≤ 3 ∧
    brewExe (infoInvocation "foo") = true ∧
    ((pkgFoo.uninstall false false) extOk).2.length ≤ 3 ∧
    brewExe (uninstallInvocation pkgFoo false false) = true ∧
    (update extFail).2.length ≤ 3 ∧
    brewExe updateInvocation = true :=
  ⟨(c2_bounded_brew_invocations.1 extOk "foo").1,
    (c2_bounded_brew_invocations.1 extOk "foo").2 (infoInvocation "foo") (by decide),
    (c2_bounded_brew_invocations.2.2.1 extOk pkgFoo false false).1,
    (c2_bounded_brew_invocations.2.2.1 extOk pkgFoo false false).2
      (uninstallInvocation pkgFoo false false) (by decide),
    (c2_bounded_brew_invocations.2.2.2.2.2.2.1 extFail).1,
    (c2_bounded_brew_invocations.2.2.2.2.2.2.1 extFail).2 updateInvocation (by decide)⟩

/-- Claim C5 counterexample: the invocation constructed by `update` carries
no environment variables at all, so it does not inject
HOMEBREW_NO_AUTO_UPDATE=1. -/
theorem c5_counterexample :
    (update extOk).2 = [updateInvocation] ∧
    updateInvocation.env = [] ∧
    ¬ noAutoUpdate ∈ updateInvocation.env :=
  ⟨rfl, rfl, by decide⟩

/-- Claim C5 (amended): every brew invocation constructed by `Package::new`,
`install`, `uninstall`, `pin`, `unpin`, `upgrade`, `packages` and
`test_brew_installed` injects HOMEBREW_NO_AUTO_UPDATE=1; the single
exception is the `brew update` invocation built by `update`, which carries
an empty environment list (the `brew --version` check reached from
`update`'s failure path does inject it). -/
theorem c5_env_injection :
    (∀ (ext : Extern) (name : String),
      ∀ i ∈ (Package.new name ext).2, noAutoUpdate ∈ i.env) ∧
    (∀ (ext : Extern) (p : Package) (o : Options),
      ∀ i ∈ ((p.install o) ext).2, noAutoUpdate ∈ i.env) ∧
    (∀ (ext : Extern) (p : Package) (f d : Bool),
      ∀ i ∈ ((p.uninstall f d) ext).2, noAutoUpdate ∈ i.env) ∧
    (∀ (ext : Extern) (p : Package), ∀ i ∈ (p.pin ext).2, noAutoUpdate ∈ i.env) ∧
    (∀ (ext : Extern) (p : Package), ∀ i ∈ (p.unpin ext).2, noAutoUpdate ∈ i.env) ∧
    (∀ (ext : Extern) (p : Package), ∀ i ∈ (p.upgrade ext).2, noAutoUpdate ∈ i.env) ∧
    (∀ (ext : Extern) (arg : String),
      ∀ i ∈ (packages arg ext).2, noAutoUpdate ∈ i.env) ∧
    (∀ ext : Extern, ∀ i ∈ (test_brew_installed ext).2, noAutoUpdate ∈ i.env) ∧
    (∀ ext : Extern, (update ext).2.head? = some updateInvocation) ∧
    updateInvocation.env = [] ∧
    (∀ ext : Extern,
      ∀ i ∈ (update ext).2, i = updateInvocation ∨ noAutoUpdate ∈ i.env) := by
  refine ⟨?_, ?_, ?_, ?_, ?_, ?_, ?_, ?_, ?_, rfl, ?_⟩
  · intro ext name
    exact new_mem name ext (List.mem_cons_self _ _) (List.mem_cons_self _ _)
  · intro ext p o
    exact install_mem p o ext (fun sub => List.mem_cons_self _ _)
      (List.mem_cons_self _ _) (List.mem_cons_self _ _)
  · intro ext p f d
    exact uninstall_mem p f d ext (List.mem_cons_self _ _) (List.mem_cons_self _ _)
      (List.mem_cons_self _ _)
  · intro ext p
    exact pin_mem p ext (List.mem_cons_self _ _) (List.mem_cons_self _ _)
      (List.mem_cons_self _ _)
  · intro ext p
    exact unpin_mem p ext (List.mem_cons_self _ _) (List.mem_cons_self _ _)
      (List.mem_cons_self _ _)
  · intro ext p
    exact upgrade_mem p ext (List.mem_cons_self _ _) (List.mem_cons_self _ _)
      (List.mem_cons_self _ _)
  · intro ext arg
    exact packages_mem arg ext (List.mem_cons_self _ _) (List.mem_cons_self _ _)
  · intro ext i hi
    rw [test_trace] at hi
    simp at hi
    rw [hi]
    exact List.mem_cons_self _ _
  · intro ext
    exact update_head ext
  · intro ext
    exact update_mem ext (Or.inl rfl) (Or.inr (List.mem_cons_self _ _))

/-- Claim C5 witness at concrete inputs. -/
theorem c5_env_injection_witness :
    noAutoUpdate ∈ (infoInvocation "foo").env ∧
    noAutoUpdate ∈ (installInvocation pkgFoo Options.new "install").env ∧
    noAutoUpdate ∈ (uninstallInvocation pkgFoo false false).env ∧
    noAutoUpdate ∈ (pinInvocation "foo").env ∧
    noAutoUpdate ∈ (unpinInvocation "foo").env ∧
    noAutoUpdate ∈ (upgradeInvocation "foo").env ∧
    noAutoUpdate ∈ (packagesInvocation "--all").env ∧
    noAutoUpdate ∈ versionInvocation.env ∧
    (update extOk).2.head? = some updateInvocation ∧
    (versionInvocation = updateInvocation ∨ noAutoUpdate ∈ versionInvocation.env) :=
  ⟨c5_env_injection.1 extOk "foo" (infoInvocation "foo") (by decide),
    c5_env_injection.2.1 extOk pkgFoo Options.new
      (installInvocation pkgFoo Options.new "install") (by decide),
    c5_env_injection.2.2.1 extOk pkgFoo false false
      (uninstallInvocation pkgFoo false false) (by decide),
    c5_env_injection.2.2.2.1 extOk pkgFoo (pinInvocation "foo") (by decide),
    c5_env_injection.2.2.2.2.1 extOk pkgFooPinned (unpinInvocation "foo") (by decide),
    c5_env_injection.2.2.2.2.2.1 extOk pkgFooInstalled (upgradeInvocation "foo") (by decide),
    c5_env_injection.2.2.2.2.2.2.1 extOk "--all" (packagesInvocation "--all") (by decide),
    c5_env_injection.2.2.2.2.2.2.2.1 extOk versionInvocation (by decide),
    c5_env_injection.2.2.2.2.2.2.2.2.1 extOk,
    c5_env_injection.2.2.2.2.2.2.2.2.2.2 extFail versionInvocation (by decide)⟩

/-- Any key-value pair in a map returned by `packages` has the package's
own name as its key. -/
theorem packages_keys {ext : Extern} {arg : String} {m : List (String × Package)}
    (h : (packages arg ext).1 = Except.ok m) :
    ∀ kv ∈ m, kv.1 = kv.2.name := by
  obtain ⟨v, rfl⟩ := packages_ok_inv h
  intro kv hkv
  rw [List.mem_map] at hkv
  obtain ⟨p, _, rfl⟩ := hkv
  rfl

/-- Claim C7: the library holds no mutable state: in the embedding every
operation is a pure function of the receiver and the external world; the
maps built by `packages` / `all_installed` / `all_packages` are keyed by
each package's own name field, and any package returned by pin, unpin,
uninstall, upgrade or install is either an identical clone of the receiver
(pin/unpin fixed points) or a fresh value deserialized from command
output, never a mutated receiver. -/
theorem c7_no_shared_mutable_state :
    (∀ (ext : Extern) (arg : String) (m : List (String × Package)),
      (packages arg ext).1 = Except.ok m → ∀ kv ∈ m, kv.1 = kv.2.name) ∧
    (∀ (ext : Extern) (m : List (String × Package)),
      (all_installed ext).1 = Except.ok m → ∀ kv ∈ m, kv.1 = kv.2.name) ∧
    (∀ (ext : Extern) (m : List (String × Package)),
      (all_packages ext).1 = Except.ok m → ∀ kv ∈ m, kv.1 = kv.2.name) ∧
    (∀ (ext : Extern) (p q : Package),
      (p.pin ext).1 = Except.ok q → q = p ∨ FreshlyParsed ext q) ∧
    (∀ (ext : Extern) (p q : Package),
      (p.unpin ext).1 = Except.ok q → q = p ∨ FreshlyParsed ext q) ∧
    (∀ (ext : Extern) (p : Package) (f d : Bool) (q : Package),
      ((p.uninstall f d) ext).1 = Except.ok q → FreshlyParsed ext q) ∧
    (∀ (ext : Extern) (p q : Package),
      (p.upgrade ext).1 = Except.ok q → FreshlyParsed ext q) ∧
    (∀ (ext : Extern) (p : Package) (o : Options) (q : Package),
      ((p.install o) ext).1 = Except.ok q → FreshlyParsed ext q) := by
  refine ⟨?_, ?_, ?_, ?_, ?_, ?_, ?_, ?_⟩
  · intro ext arg m h
    exact packages_keys h
  · intro ext m h
    exact packages_keys h
  · intro ext m h
    exact packages_keys h
  · intro ext p q h
    simp only [Package.pin] at h
    by_cases hp : (!p.pinned) = true
    · rw [if_pos hp] at h
      exact Or.inr (runBrewReturn_ok_fresh h)
    · rw [if_neg hp] at h
      simp [pureB] at h
      exact Or.inl h.symm
  · intro ext p q h
    simp only [Package.unpin] at h
    by_cases hp : p.pinned = true
    · rw [if_pos hp] at h
      exact Or.inr (runBrewReturn_ok_fresh h)
    · rw [if_neg hp] at h
      simp [pureB] at h
      exact Or.inl h.symm
  · intro ext p f d q h
    simp only [Package.uninstall] at h
    exact runBrewReturn_ok_fresh h
  · intro ext p q h
    simp only [Package.upgrade] at h
    by_cases hp : p.is_installed = true
    · rw [if_pos hp] at h
      exact runBrewReturn_ok_fresh h
    · rw [if_neg hp] at h
      simp [throwE] at h
  · intro ext p o q h
    by_cases h1 : p.is_installed = true
    · by_cases h2 : o.force = true
      · rw [install_force h1 h2] at h
        exact installRun_ok_fresh h
      · by_cases h3 : contains (p.install_options.getD []) o.package_options = true
        · rw [install_short h1 (by simpa using h2) h3] at h
          exact new_ok_fresh h
        · rw [install_noshort h1 (by simpa using h2) (by simpa using h3)] at h
          exact installRun_ok_fresh h
    · rw [install_not_installed (by simpa using h1)] at h
      exact installRun_ok_fresh h

/-- Claim C7 witness at concrete inputs. -/
theorem c7_no_shared_mutable_state_witness :
    (("foo", pkgFoo).1 = ("foo", pkgFoo).2.name) ∧
    (pkgFooPinned = pkgFooPinned ∨ FreshlyParsed extOk pkgFooPinned) ∧
    FreshlyParsed extOk pkgFoo ∧
    FreshlyParsed extOkInstalled pkgFooInstalled :=
  ⟨c7_no_shared_mutable_state.1 extOk "--all" [("foo", pkgFoo)] rfl ("foo", pkgFoo)
      (List.mem_cons_self _ _),
    c7_no_shared_mutable_state.2.2.2.1 extOk pkgFooPinned pkgFooPinned rfl,
    c7_no_shared_mutable_state.2.2.2.2.2.1 extOk pkgFoo false false pkgFoo rfl,
    c7_no_shared_mutable_state.2.2.2.2.2.2.2 extOkInstalled pkgFoo Options.new
      pkgFooInstalled rfl⟩

/-- Claim C1 counterexample: with brew installed and the info command
failing (stdout "out", stderr "boom"), `Package::new` returns
`PackageNotFound`, which carries no stderr text, and `packages` (hence
`all_installed` / `all_packages`) returns `UnknownError` wrapping the
command's stdout, not its stderr. -/
theorem c1_counterexample :
    extFail.run (infoInvocation "foo") = Except.ok ⟨false, "out", "boom"⟩ ∧
    brewInstalled extFail ∧
    (Package.new "foo" extFail).1 = Except.error Error.PackageNotFound ∧
    Error.carriedText Error.PackageNotFound = none ∧
    (packages "--all" extFail).1 = Except.error (Error.UnknownError "out") ∧
    "out" ≠ "boom" :=
  ⟨rfl, rfl, rfl, rfl, rfl, by decide⟩

/-- Claim C1 (amended): when a brew command exits with failure and brew is
installed, uninstall, pin, unpin, upgrade and update return
`UnknownError` wrapping the command's stderr unchanged and install returns
`InstallFailed` wrapping the stderr unchanged on each of its three
command-running branches (brew install when not installed, brew reinstall
when installed with force set, and brew reinstall when installed with the
requested options not contained in the installed ones), while
`Package::new` returns `PackageNotFound` (discarding stderr) and
`packages` returns `UnknownError` wrapping the command's stdout; when a
command succeeds but its stdout fails to parse as JSON, the returned error
is `ParseError` wrapping the serde error. -/
theorem c1_error_passthrough :
    (∀ (ext : Extern) (p : Package) (f d : Bool) (out : Output),
      ext.run (uninstallInvocation p f d) = Except.ok out → out.success = false →
      brewInstalled ext →
      ((p.uninstall f d) ext).1 = Except.error (Error.UnknownError out.stderr)) ∧
    (∀ (ext : Extern) (p : Package) (out : Output), p.pinned = false →
      ext.run (pinInvocation p.name) = Except.ok out → out.success = false →
      brewInstalled ext →
      (p.pin ext).1 = Except.error (Error.UnknownError out.stderr)) ∧
    (∀ (ext : Extern) (p : Package) (out : Output), p.pinned = true →
      ext.run (unpinInvocation p.name) = Except.ok out → out.success = false →
      brewInstalled ext →
      (p.unpin ext).1 = Except.error (Error.UnknownError out.stderr)) ∧
    (∀ (ext : Extern) (p : Package) (out : Output), p.is_installed = true →
      ext.run (upgradeInvocation p.name) = Except.ok out → out.success = false →
      brewInstalled ext →
      (p.upgrade ext).1 = Except.error (Error.UnknownError out.stderr)) ∧
    (∀ (ext : Extern) (out : Output),
      ext.run updateInvocation = Except.ok out → out.success = false →
      brewInstalled ext →
      (update ext).1 = Except.error (Error.UnknownError out.stderr)) ∧
    (∀ (ext : Extern) (p : Package) (o : Options) (out : Output), p.is_installed = false →
      ext.run (installInvocation p o "install") = Except.ok out → out.success = false →
      brewInstalled ext →
      ((p.install o) ext).1 = Except.error (Error.InstallFailed out.stderr)) ∧
    (∀ (ext : Extern) (p : Package) (o : Options) (out : Output), p.is_installed = true →
      o.force = true →
      ext.run (installInvocation p o "reinstall") = Except.ok out → out.success = false →
      brewInstalled ext →
      ((p.install o) ext).1 = Except.error (Error.InstallFailed out.stderr)) ∧
    (∀ (ext : Extern) (p : Package) (o : Options) (out : Output), p.is_installed = true →
      o.force = false →
      contains (p.install_options.getD []) o.package_options = false →
      ext.run (installInvocation p o "reinstall") = Except.ok out → out.success = false →
      brewInstalled ext →
      ((p.install o) ext).1 = Except.error (Error.InstallFailed out.stderr)) ∧
    (∀ (ext : Extern) (name : String) (out : Output),
      ext.run (infoInvocation name) = Except.ok out → out.success = false →
      brewInstalled ext →
      (Package.new name ext).1 = Except.error Error.PackageNotFound) ∧
    (∀ (ext : Extern) (arg : String) (out : Output),
      ext.run (packagesInvocation arg) = Except.ok out → out.success = false →
      brewInstalled ext →
      (packages arg ext).1 = Except.error (Error.UnknownError out.stdout)) ∧
    (∀ (ext : Extern) (name : String) (out : Output) (e : String),
      ext.run (infoInvocation name) = Except.ok out → out.success = true →
      ext.parsePackages out.stdout = Except.error e →
      (Package.new name ext).1 = Except.error (Error.ParseError e)) ∧
    (∀ (ext : Extern) (arg : String) (out : Output) (e : String),
      ext.run (packagesInvocation arg) = Except.ok out → out.success = true →
      ext.parsePackages out.stdout = Except.error e →
      (packages arg ext).1 = Except.error (Error.ParseError e)) := by
  refine ⟨?_, ?_, ?_, ?_, ?_, ?_, ?_, ?_, ?_, ?_, ?_, ?_⟩
  · intro ext p f d out hr hs hb
    simp only [Package.uninstall]
    exact runBrewReturn_fail hr hs hb
  · intro ext p out hp hr hs hb
    simp only [Package.pin]
    rw [if_pos (by simp [hp])]
    exact runBrewReturn_fail hr hs hb
  · intro ext p out hp hr hs hb
    simp only [Package.unpin]
    rw [if_pos hp]
    exact runBrewReturn_fail hr hs hb
  · intro ext p out hp hr hs hb
    simp only [Package.upgrade]
    rw [if_pos hp]
    exact runBrewReturn_fail hr hs hb
  · intro ext out hr hs hb
    exact update_fail hr hs hb
  · intro ext p o out hp hr hs hb
    rw [install_not_installed hp]
    exact installRun_fail hr hs hb
  · intro ext p o out h1 h2 hr hs hb
    rw [install_force h1 h2]
    exact installRun_fail hr hs hb
  · intro ext p o out h1 h2 h3 hr hs hb
    rw [install_noshort h1 h2 h3]
    exact installRun_fail hr hs hb
  · intro ext name out hr hs hb
    exact new_fail hr hs hb
  · intro ext arg out hr hs hb
    exact packages_fail hr hs hb
  · intro ext name out e hr hs hp
    exact new_parse_fail hr hs hp
  · intro ext arg out e hr hs hp
    exact packages_parse_fail hr hs hp

/-- Claim C1 witness at concrete external worlds. -/
theorem c1_error_passthrough_witness :
    ((pkgFoo.uninstall false false) extFail).1 =
      Except.error (Error.UnknownError "boom") ∧
    (pkgFoo.pin extFail).1 = Except.error (Error.UnknownError "boom") ∧
    (pkgFooPinned.unpin extFail).1 = Except.error (Error.UnknownError "boom") ∧
    (pkgFooInstalled.upgrade extFail).1 = Except.error (Error.UnknownError "boom") ∧
    (update extFail).1 = Except.error (Error.UnknownError "boom") ∧
    ((pkgFoo.install Options.new) extFail).1 =
      Except.error (Error.InstallFailed "boom") ∧
    ((pkgFooInstalled.install optForce) extFail).1 =
      Except.error (Error.InstallFailed "boom") ∧
    ((pkgFooInstalled.install optWithPkgOpt) extFail).1 =
      Except.error (Error.InstallFailed "boom") ∧
    (Package.new "foo" extFail).1 = Except.error Error.PackageNotFound ∧
    (packages "--all" extFail).1 = Except.error (Error.UnknownError "out") ∧
    (Package.new "foo" extBadJson).1 = Except.error (Error.ParseError "bad json") ∧
    (packages "--all" extBadJson).1 = Except.error (Error.ParseError "bad json") :=
  ⟨c1_error_passthrough.1 extFail pkgFoo false false ⟨false, "out", "boom"⟩ rfl rfl rfl,
    c1_error_passthrough.2.1 extFail pkgFoo ⟨false, "out", "boom"⟩ rfl rfl rfl rfl,
    c1_error_passthrough.2.2.1 extFail pkgFooPinned ⟨false, "out", "boom"⟩ rfl rfl rfl rfl,
    c1_error_passthrough.2.2.2.1 extFail pkgFooInstalled ⟨false, "out", "boom"⟩
      rfl rfl rfl rfl,
    c1_error_passthrough.2.2.2.2.1 extFail ⟨false, "out", "boom"⟩ rfl rfl rfl,
    c1_error_passthrough.2.2.2.2.2.1 extFail pkgFoo Options.new ⟨false, "out", "boom"⟩
      rfl rfl rfl rfl,
    c1_error_passthrough.2.2.2.2.2.2.1 extFail pkgFooInstalled optForce
      ⟨false, "out", "boom"⟩ rfl rfl rfl rfl rfl,
    c1_error_passthrough.2.2.2.2.2.2.2.1 extFail pkgFooInstalled optWithPkgOpt
      ⟨false, "out", "boom"⟩ rfl rfl rfl rfl rfl rfl,
    c1_error_passthrough.2.2.2.2.2.2.2.2.1 extFail "foo" ⟨false, "out", "boom"⟩
      rfl rfl rfl,
    c1_error_passthrough.2.2.2.2.2.2.2.2.2.1 extFail "--all" ⟨false, "out", "boom"⟩
      rfl rfl rfl,
    c1_error_passthrough.2.2.2.2.2.2.2.2.2.2.1 extBadJson "foo" ⟨true, "J", ""⟩ "bad json"
      rfl rfl rfl,
    c1_error_passthrough.2.2.2.2.2.2.2.2.2.2.2 extBadJson "--all" ⟨true, "J", ""⟩ "bad json"
      rfl rfl rfl⟩

/-- Claim C10 counterexample: on the short-circuit path (receiver already
installed, force unset, requested package options contained in the
installed ones) `install` returns the freshly queried record without any
installed-ness check, so it can return `Ok` with a not-installed record. -/
theorem c10_counterexample :
    pkgFooInstalled.is_installed = true ∧
    Options.new.force = false ∧
    ((pkgFooInstalled.install Options.new) extOk).1 = Except.ok pkgFoo ∧
    pkgFoo.is_installed = false :=
  ⟨rfl, rfl, rfl, rfl⟩

/-- Claim C10 (amended): on every path of `install` that actually runs a
`brew install` / `brew reinstall` command, `Ok(p)` implies the returned
package is installed, enforced by the re-query returning
InstallFailed("Could not detect new install") otherwise; on the
short-circuit path (already installed, force unset, requested options
contained in the installed options) `install` returns exactly the result
of `Package::new`, whose record is not checked for installed-ness. -/
theorem c10_install_ensures_installed :
    (∀ (ext : Extern) (p : Package) (o : Options) (q : Package), p.is_installed = false →
      ((p.install o) ext).1 = Except.ok q → q.is_installed = true) ∧
    (∀ (ext : Extern) (p : Package) (o : Options) (q : Package), p.is_installed = true →
      o.force = true →
      ((p.install o) ext).1 = Except.ok q → q.is_installed = true) ∧
    (∀ (ext : Extern) (p : Package) (o : Options) (q : Package), p.is_installed = true →
      o.force = false →
      contains (p.install_options.getD []) o.package_options = false →
      ((p.install o) ext).1 = Except.ok q → q.is_installed = true) ∧
    (∀ (ext : Extern) (p : Package) (o : Options), p.is_installed = true →
      o.force = false →
      contains (p.install_options.getD []) o.package_options = true →
      (p.install o) ext = Package.new p.name ext) := by
  refine ⟨?_, ?_, ?_, ?_⟩
  · intro ext p o q h1 h
    rw [install_not_installed h1] at h
    exact installRun_ok_installed h
  · intro ext p o q h1 h2 h
    rw [install_force h1 h2] at h
    exact installRun_ok_installed h
  · intro ext p o q h1 h2 h3 h
    rw [install_noshort h1 h2 h3] at h
    exact installRun_ok_installed h
  · intro ext p o h1 h2 h3
    rw [install_short h1 h2 h3]

/-- Claim C10 witness at concrete inputs. -/
theorem c10_install_ensures_installed_witness :
    pkgFooInstalled.is_installed = true ∧
    ((pkgFooInstalled.install Options.new) extOk) = Package.new "foo" extOk :=
  ⟨c10_install_ensures_installed.1 extOkInstalled pkgFoo Options.new pkgFooInstalled
      rfl rfl,
    c10_install_ensures_installed.2.2.2 extOk pkgFooInstalled Options.new rfl rfl rfl⟩

/-- Claim C4: `Package::new(name)` runs `/usr/local/bin/brew info <name>
--json=v1`, parses stdout as a JSON array of package records and returns the
first one; an empty array yields `Error::PackageNotFound`, and a failing
command with brew installed also yields `Error::PackageNotFound`. -/
theorem c4_new_behaviour :
    (∀ (ext : Extern) (name : String),
      (Package.new name ext).2.head? =
        some ⟨"/usr/local/bin/brew", ["info", name, "--json=v1"], [noAutoUpdate]⟩) ∧
    (∀ (ext : Extern) (name : String) (out : Output) (p : Package) (rest : List Package),
      ext.run (infoInvocation name) = Except.ok out → out.success = true →
      ext.parsePackages out.stdout = Except.ok (p :: rest) →
      (Package.new name ext).1 = Except.ok p) ∧
    (∀ (ext : Extern) (name : String) (out : Output),
      ext.run (infoInvocation name) = Except.ok out → out.success = true →
      ext.parsePackages out.stdout = Except.ok [] →
      (Package.new name ext).1 = Except.error Error.PackageNotFound) ∧
    (∀ (ext : Extern) (name : String) (out : Output),
      ext.run (infoInvocation name) = Except.ok out → out.success = false →
      brewInstalled ext →
      (Package.new name ext).1 = Except.error Error.PackageNotFound) := by
  refine ⟨?_, ?_, ?_, ?_⟩
  · intro ext name
    exact new_head name ext
  · intro ext name out p rest hr hs hp
    exact new_ok hr hs hp
  · intro ext name out hr hs hp
    exact new_empty hr hs hp
  · intro ext name out hr hs hb
    exact new_fail hr hs hb

/-- Claim C4 witness at concrete external worlds. -/
theorem c4_new_behaviour_witness :
    (Package.new "foo" extOk).2.head? =
      some ⟨"/usr/local/bin/brew", ["info", "foo", "--json=v1"], [noAutoUpdate]⟩ ∧
    (Package.new "foo" extOk).1 = Except.ok pkgFoo ∧
    (Package.new "foo" extEmptyJson).1 = Except.error Error.PackageNotFound ∧
    (Package.new "foo" extFail).1 = Except.error Error.PackageNotFound :=
  ⟨c4_new_behaviour.1 extOk "foo",
    c4_new_behaviour.2.1 extOk "foo" ⟨true, "J", ""⟩ pkgFoo [] rfl rfl rfl,
    c4_new_behaviour.2.2.1 extEmptyJson "foo" ⟨true, "J", ""⟩ rfl rfl rfl,
    c4_new_behaviour.2.2.2 extFail "foo" ⟨false, "out", "boom"⟩ rfl rfl rfl⟩

end BrewRs
